import Mathlib

/-!
Verification of the GymFC `FlightControllerPlugin` (FlightControllerPlugin.cpp):
a shallow embedding of the plugin's bootstrap, sensor-completion barrier,
sensor state store, action wire decoding and control loop, together with
proofs of the specified properties.

Conventions of the embedding:
* protobuf `float`/`double` sensor values are modelled as rationals (`ℚ`);
  the claims under study are structural (counting ticks, ordering events,
  comparing against the 0.017 tolerance) and do not depend on rounding;
* raw wire bytes are natural numbers (each byte `< 256`);
* the control loop, an infinite `while (1)`, is modelled one iteration at a
  time, and the inner settle loop of `FlushSensors` is modelled with explicit
  fuel; effects (simulation ticks, publishes, sends, barrier operations) are
  recorded in an event trace.
-/

namespace GymFC

/-- The `Sensors` enum of the plugin (`IMU`, `ESC`). -/
inductive Sensors where
  | IMU
  | ESC
deriving DecidableEq, Repr

/-- The `State.statusCode` wire enum (`OK`, `ERROR`). -/
inductive StatusCode where
  | OK
  | ERROR
deriving DecidableEq, Repr

/-- The protobuf `State` message held in `this->state`: the Sensor State
Store.  Repeated fields are lists; `sim_time` is the stamped simulation
time. -/
structure StateMsg where
  imu_angular_velocity_rpy : List ℚ
  imu_orientation_quat : List ℚ
  imu_linear_acceleration_xyz : List ℚ
  esc_motor_angular_velocity : List ℚ
  esc_temperature : List ℚ
  esc_current : List ℚ
  esc_voltage : List ℚ
  sim_time : ℚ
  status_code : StatusCode
deriving DecidableEq, Repr

/-- A freshly constructed protobuf `State` message: every repeated field is
empty, scalar fields hold their proto defaults. -/
def emptyState : StateMsg :=
  ⟨[], [], [], [], [], [], [], 0, StatusCode.OK⟩

/-- `FlightControllerPlugin::InitState`: seed the Sensor State Store with
sentinel values — angular velocity 1 on all three axes, zero linear
acceleration and orientation, and per-actuator ESC sentinels 100 (speed),
10000 (temperature), -1 (current and voltage). -/
def initState (numActuators : ℕ) : StateMsg :=
  { emptyState with
    imu_angular_velocity_rpy := List.replicate 3 1
    imu_linear_acceleration_xyz := List.replicate 3 0
    imu_orientation_quat := List.replicate 4 0
    esc_motor_angular_velocity := List.replicate numActuators 100
    esc_temperature := List.replicate numActuators 10000
    esc_current := List.replicate numActuators (-1)
    esc_voltage := List.replicate numActuators (-1) }

/-- `FlightControllerPlugin::ResetCallbackCount`:
`sensorCallbackCount = -1 * numSensorCallbacks` (arming the barrier). -/
def resetCallbackCount (numSensorCallbacks : ℤ) : ℤ :=
  -1 * numSensorCallbacks

/-- One sensor-callback arrival on the barrier counter:
`this->sensorCallbackCount++` followed by `callbackCondition.notify_all()`
(both `ImuCallback` and `EscSensorCallback` end this way). -/
def signalArrival (sensorCallbackCount : ℤ) : ℤ :=
  sensorCallbackCount + 1

/-- The guard of the wait loop in `WaitForSensorsThenSend`:
`while (this->sensorCallbackCount < 0) wait`. -/
def waitBlocked (sensorCallbackCount : ℤ) : Bool :=
  decide (sensorCallbackCount < 0)

/-- `FlightControllerPlugin::CalculateCallbackCount`: fold over
`supportedSensors`, adding 1 for `IMU` and `numActuators` for `ESC`.
The running member `numSensorCallbacks` is declared in the plugin header
(not part of the sources); its initial value 0 is modelled from the spec
(`expectedPerStep`, "computed once from SensorConfig"). -/
def calculateCallbackCount (numActuators : ℕ) (supportedSensors : List Sensors) : ℕ :=
  supportedSensors.foldl
    (fun acc s =>
      match s with
      | Sensors.IMU => acc + 1
      | Sensors.ESC => acc + numActuators) 0

/-- The settle tolerance in `FlushSensors`: `double error = 0.017`, the
rational 17/1000 written in lowest terms so that comparisons against it
reduce; `settleError_eq` below identifies it with `17 / 1000`. -/
def settleError : ℚ := ⟨17, 1000, by norm_num, by norm_num⟩

/-- The `std::abs` call of the settle check. -/
def ratAbs (q : ℚ) : ℚ := if q < 0 then -q else q

/-- The `if` condition of the settle loop in `FlushSensors`:
`size < 2 || |rpy(0)| > error || |rpy(1)| > error || |rpy(2)| > error`.
`true` means not yet settled (tick again). -/
def settleNotDone (rpy : List ℚ) : Bool :=
  decide (rpy.length < 2) ||
    decide (settleError < ratAbs (rpy.getD 0 0)) ||
    decide (settleError < ratAbs (rpy.getD 1 0)) ||
    decide (settleError < ratAbs (rpy.getD 2 0))

/-- The protobuf `Action` message: `world_control` is the raw varint value
of the `WorldControl` enum (`STEP = 0`, `RESET = 1`), `motor` the repeated
float field, each entry kept as its raw 32-bit little-endian payload word
(the plugin only copies the values, never computes with them). -/
structure ActionMsg where
  world_control : ℕ
  motor : List ℕ
deriving DecidableEq, Repr

/-- The wire value `gymfc::msgs::Action::STEP`. -/
def STEP : ℕ := 0

/-- The wire value `gymfc::msgs::Action::RESET`. -/
def RESET : ℕ := 1

/-- Decode one base-128 varint from a byte list; fails on a truncated
varint (a continuation byte at the end of the buffer). -/
def parseVarint : List ℕ → Option (ℕ × List ℕ)
  | [] => none
  | b :: rest =>
    if b < 128 then some (b, rest)
    else
      match parseVarint rest with
      | none => none
      | some (v, rest') => some (b % 128 + 128 * v, rest')

/-- Decode one little-endian fixed32 payload word; fails when fewer than
4 bytes remain. -/
def parseFixed32 : List ℕ → Option (ℕ × List ℕ)
  | b0 :: b1 :: b2 :: b3 :: rest =>
    some (b0 + 256 * b1 + 256 ^ 2 * b2 + 256 ^ 3 * b3, rest)
  | _ => none

/-- Decode `n` consecutive fixed32 words (a packed repeated-float payload). -/
def parseWords : ℕ → List ℕ → Option (List ℕ × List ℕ)
  | 0, rest => some ([], rest)
  | n + 1, rest =>
    match parseFixed32 rest with
    | none => none
    | some (w, rest') =>
      match parseWords n rest' with
      | none => none
      | some (ws, rest'') => some (w :: ws, rest'')

/-- Skip `n` bytes of an unknown field's payload; fails when the buffer is
shorter than the declared length. -/
def skipBytes (n : ℕ) (buf : List ℕ) : Option (List ℕ) :=
  if n ≤ buf.length then some (buf.drop n) else none

/-- Field-by-field wire decoding of an `Action` buffer, merging into `ac`
(protobuf merge semantics).  Handles field 1 (`world_control`, varint),
field 2 (`motor`, fixed32 or packed), skips unknown fields by wire type,
and fails on truncated or malformed input, returning the partially merged
message alongside the success flag — exactly what `ParseFromString` leaves
in the message object.  `fuel` bounds the number of fields; each field
consumes at least one byte, so `buf.length` fuel always suffices. -/
def parseFields : ℕ → List ℕ → ActionMsg → Bool × ActionMsg
  | _, [], ac => (true, ac)
  | 0, _ :: _, ac => (false, ac)
  | fuel + 1, b :: bs, ac =>
    match parseVarint (b :: bs) with
    | none => (false, ac)
    | some (tag, rest) =>
      let fieldNum := tag / 8
      let wireType := tag % 8
      if fieldNum = 1 ∧ wireType = 0 then
        match parseVarint rest with
        | none => (false, ac)
        | some (v, rest') => parseFields fuel rest' { ac with world_control := v }
      else if fieldNum = 2 ∧ wireType = 5 then
        match parseFixed32 rest with
        | none => (false, ac)
        | some (w, rest') => parseFields fuel rest' { ac with motor := ac.motor ++ [w] }
      else if fieldNum = 2 ∧ wireType = 2 then
        match parseVarint rest with
        | none => (false, ac)
        | some (len, rest') =>
          if len % 4 = 0 then
            match parseWords (len / 4) rest' with
            | none => (false, ac)
            | some (ws, rest'') => parseFields fuel rest'' { ac with motor := ac.motor ++ ws }
          else (false, ac)
      else if wireType = 0 then
        match parseVarint rest with
        | none => (false, ac)
        | some (_, rest') => parseFields fuel rest' ac
      else if wireType = 1 then
        match skipBytes 8 rest with
        | none => (false, ac)
        | some rest' => parseFields fuel rest' ac
      else if wireType = 2 then
        match parseVarint rest with
        | none => (false, ac)
        | some (len, rest') =>
          match skipBytes len rest' with
          | none => (false, ac)
          | some rest'' => parseFields fuel rest'' ac
      else if wireType = 5 then
        match skipBytes 4 rest with
        | none => (false, ac)
        | some rest' => parseFields fuel rest' ac
      else (false, ac)

/-- `this->action.ParseFromString(msg)`: clear the message, then decode the
buffer field by field.  Returns the success flag (which `ReceiveAction`
discards) and the resulting message contents. -/
def parseFromString (buf : List ℕ) : Bool × ActionMsg :=
  parseFields buf.length buf ⟨0, []⟩

/-- `FlightControllerPlugin::ReceiveAction`: a failed or empty `recvfrom`
(`recvSize < 0`, modelled as `none`) returns `false` and leaves `this->action`
alone; otherwise the buffer is fed to `ParseFromString`, whose return value
is ignored, and `ReceiveAction` returns `true` regardless. -/
def receiveAction (recv : Option (List ℕ)) (prevAction : ActionMsg) :
    Bool × ActionMsg :=
  match recv with
  | none => (false, prevAction)
  | some buf => (true, (parseFromString buf).2)

/-- Externally observable actions of the control-loop thread, in program
order: `softReset` is a `SoftReset()` call, `tick` a `world->Step(1)` call,
`arm k` a `ResetCallbackCount()` call with expected count `k`, `publish ms`
a `cmdPub->Publish` of the per-actuator command values `ms`, `waitSensors`
the blocking wait of `WaitForSensorsThenSend`, and `send s` a `SendState()`
call of a `State` whose status code is `s`. -/
inductive Event where
  | softReset
  | tick
  | arm (k : ℕ)
  | publish (motors : List ℕ)
  | waitSensors
  | send (status : StatusCode)
deriving DecidableEq, Repr

/-- Discriminator for `Event.tick`. -/
def Event.isTick : Event → Bool
  | Event.tick => true
  | _ => false

/-- Discriminator for `Event.softReset`. -/
def Event.isSoftReset : Event → Bool
  | Event.softReset => true
  | _ => false

/-- Discriminator for `Event.arm`. -/
def Event.isArm : Event → Bool
  | Event.arm _ => true
  | _ => false

/-- Discriminator for `Event.publish`. -/
def Event.isPublish : Event → Bool
  | Event.publish _ => true
  | _ => false

/-- Discriminator for `Event.waitSensors`. -/
def Event.isWait : Event → Bool
  | Event.waitSensors => true
  | _ => false

/-- Discriminator for `Event.send`. -/
def Event.isSend : Event → Bool
  | Event.send _ => true
  | _ => false

/-- Static configuration of the plugin, fixed by `Load`/`LoadVars` before
the loop thread starts: the actuator count (`ENV_NUM_MOTORS`) and the
enabled-sensor list (`ENV_SUPPORTED_SENSORS`). -/
structure Config where
  numActuators : ℕ
  supportedSensors : List Sensors
deriving DecidableEq, Repr

/-- The world's IMU readings as a stream: `rpy t` is the content of
`state.imu_angular_velocity_rpy` observed by the settle check after `t`
simulation ticks (`rpy 0` is the content on entry to `FlushSensors`). -/
def ReadingStream : Type := ℕ → List ℚ

/-- The `while (1)` settle loop of `FlushSensors`, fueled: at trip `t`,
if the check says not settled, do `world->Step(1)` then `SoftReset()` and
loop; otherwise break with an empty remainder.  `none` means the fuel ran
out before the readings settled (the C++ loop would still be running). -/
def flushLoop (rpy : ReadingStream) : ℕ → ℕ → Option (List Event)
  | 0, _ => none
  | fuel + 1, t =>
    if settleNotDone (rpy t) then
      match flushLoop rpy fuel (t + 1) with
      | none => none
      | some tr => some (Event.tick :: Event.softReset :: tr)
    else some []

/-- `FlightControllerPlugin::FlushSensors`: one unconditional `SoftReset()`
("Make sure we do a reset on the time"), then the settle loop. -/
def flushSensors (rpy : ReadingStream) (fuel : ℕ) : Option (List Event) :=
  (flushLoop rpy fuel 0).map (fun tr => Event.softReset :: tr)

/-- A concrete reading stream for the witnesses: the sentinel reading
before the first tick, zero angular velocity afterwards. -/
def rpyWitness : ReadingStream :=
  fun t => if t = 0 then List.replicate 3 1 else [0, 0, 0]

/-- A concrete reading stream for the witnesses: always settled. -/
def rpyZeros : ReadingStream := fun _ => [0, 0, 0]

/-- The state sent by the `RESET`-branch witness run. -/
def resetWitnessState : StateMsg :=
  { emptyState with
    imu_angular_velocity_rpy := [0, 0, 0]
    status_code := StatusCode.OK }

/-- The `RESET` branch of `LoopThread`: flush the sensors, then stamp the
simulation time and `OK` status into the state and send it.  The store's
angular velocity ends up as the latest reading, i.e. the one after all
ticks performed by the flush. -/
def resetBranch (rpy : ReadingStream) (fuel : ℕ) (simTime : ℚ)
    (st : StateMsg) : Option (List Event × StateMsg) :=
  match flushSensors rpy fuel with
  | none => none
  | some tr =>
    let st' := { st with
      imu_angular_velocity_rpy := rpy (tr.countP Event.isTick)
      sim_time := simTime
      status_code := StatusCode.OK }
    some (tr ++ [Event.send StatusCode.OK], st')

/-- The `STEP` branch of `LoopThread`: `ResetCallbackCount()` (arming the
barrier with the count computed by `CalculateCallbackCount`), build a
`MotorCommand` from `action.motor(0..numActuators-1)` and publish it,
`world->Step(1)`, then `WaitForSensorsThenSend()` (stamp time and `OK`
status, block on the barrier, send). -/
def stepBranch (cfg : Config) (ac : ActionMsg) (simTime : ℚ)
    (st : StateMsg) : List Event × StateMsg :=
  let k := calculateCallbackCount cfg.numActuators cfg.supportedSensors
  let motors := (List.range cfg.numActuators).map (fun i => ac.motor.getD i 0)
  let st' := { st with sim_time := simTime, status_code := StatusCode.OK }
  ([Event.arm k, Event.publish motors, Event.tick, Event.waitSensors,
    Event.send StatusCode.OK], st')

/-- One iteration of the `while (1)` loop in
`FlightControllerPlugin::LoopThread`: receive an action (`continue` with no
effects when none was received), dispatch on `world_control() == RESET`,
and run the corresponding branch.  Returns the event trace of the
iteration together with the resulting `action` and `state` members;
`none` only when the settle loop's fuel ran out. -/
def loopIteration (cfg : Config) (recv : Option (List ℕ))
    (prevAction : ActionMsg) (rpy : ReadingStream) (fuel : ℕ)
    (simTime : ℚ) (st : StateMsg) :
    Option (List Event × ActionMsg × StateMsg) :=
  let (received, ac) := receiveAction recv prevAction
  if received = false then some ([], ac, st)
  else if ac.world_control = RESET then
    match resetBranch rpy fuel simTime st with
    | none => none
    | some (tr, st') => some (tr, ac, st')
  else
    let (tr, st') := stepBranch cfg ac simTime st
    some (tr, ac, st')

/-- The `EscSensor` protobuf message received by `EscSensorCallback`. -/
structure EscSensorMsg where
  id : ℕ
  motor_speed : ℚ
  temperature : ℚ
  current : ℚ
  voltage : ℚ
deriving DecidableEq, Repr

/-- `FlightControllerPlugin::EscSensorCallback`: under the callback mutex,
write the four ESC channels of the Sensor State Store at index `id()`
(no bounds check: `List.set` models the in-bounds write), bump the barrier
counter, and notify the waiter. -/
def escSensorCallback (m : EscSensorMsg) (st : StateMsg)
    (sensorCallbackCount : ℤ) : StateMsg × ℤ :=
  ({ st with
      esc_motor_angular_velocity := st.esc_motor_angular_velocity.set m.id m.motor_speed
      esc_temperature := st.esc_temperature.set m.id m.temperature
      esc_current := st.esc_current.set m.id m.current
      esc_voltage := st.esc_voltage.set m.id m.voltage },
    signalArrival sensorCallbackCount)

/-- Environment and syscall outcomes seen by `LoadVars`: the optional
values of the four environment variables and whether the `bind` call
succeeds. -/
structure Env where
  sitlPort : Option ℕ
  digitalTwinSDF : Option String
  numMotors : Option ℕ
  supportedSensors : Option String
  bindSucceeds : Bool
deriving DecidableEq, Repr

/-- The member state written by `LoadVars`; `completed` records whether
`LoadVars` reached its end rather than returning early on a failure.
`numActuators` is declared in the plugin header (not part of the sources);
its initial value 0 is modelled from the spec ("actuator count", set only
from the environment). -/
structure VarsState where
  bound : Bool
  digitalTwinSDF : Option String
  numActuators : ℕ
  supportedSensors : List Sensors
  completed : Bool
deriving DecidableEq, Repr

/-- Parse the comma-separated `ENV_SUPPORTED_SENSORS` value:
`boost::split` on `,`, then case-insensitive comparison against
`imu` / `esc`; unrecognized tokens are dropped. -/
def parseSensors (s : String) : List Sensors :=
  (s.splitOn ",").filterMap (fun tok =>
    if tok.toLower = "imu" then some Sensors.IMU
    else if tok.toLower = "esc" then some Sensors.ESC
    else none)

/-- `FlightControllerPlugin::LoadVars`: bind on the configured port
(default 9002), then read the digital-twin path, the actuator count and
the supported-sensor list from the environment; each failure logs an error
and returns early from `LoadVars`, leaving the remaining members at their
defaults. -/
def loadVars (env : Env) : VarsState :=
  if env.bindSucceeds = false then
    ⟨false, none, 0, [], false⟩
  else
    match env.digitalTwinSDF with
    | none => ⟨true, none, 0, [], false⟩
    | some sdf =>
      match env.numMotors with
      | none => ⟨true, some sdf, 0, [], false⟩
      | some n =>
        match env.supportedSensors with
        | none => ⟨true, some sdf, n, [], false⟩
        | some s => ⟨true, some sdf, n, parseSensors s, true⟩

/-- The bootstrap state produced by `Load`. -/
structure LoadResult where
  vars : VarsState
  numSensorCallbacks : ℕ
  subscribed : Bool
  loopThreadStarted : Bool
deriving DecidableEq, Repr

/-- `FlightControllerPlugin::Load`: call `LoadVars` (a `void` call whose
early returns `Load` cannot observe), then `CalculateCallbackCount`, then
unconditionally subscribe to the sensor topics, seed the state, and start
`callbackLoopThread`. -/
def load (env : Env) : LoadResult :=
  let v := loadVars env
  { vars := v
    numSensorCallbacks := calculateCallbackCount v.numActuators v.supportedSensors
    subscribed := true
    loopThreadStarted := true }

end GymFC

namespace GymFC

/- Helper lemmas shared by the claim proofs. -/

/-- Iterating `signalArrival` j times adds j to the counter. -/
theorem signalArrival_iterate (j : ℕ) (c : ℤ) :
    signalArrival^[j] c = c + j := by
  induction j generalizing c with
  | zero => simp
  | succ n ih =>
    rw [Function.iterate_succ_apply, ih]
    simp [signalArrival]
    ring

/-- The model of `std::abs` agrees with the absolute value on `ℚ`. -/
theorem ratAbs_eq_abs (q : ℚ) : ratAbs q = |q| := by
  unfold ratAbs
  by_cases h : q < 0
  · rw [if_pos h, abs_of_neg h]
  · rw [if_neg h, abs_of_nonneg (le_of_not_lt h)]

/-- The literal form of the tolerance is the rational `17 / 1000`. -/
theorem settleError_eq : settleError = 17 / 1000 := by
  rw [settleError, Rat.mk'_eq_divInt, Rat.divInt_eq_div]
  norm_num

/-- The settle check reads "not settled" on the sentinel reading. -/
theorem settleNotDone_ones : settleNotDone (List.replicate 3 1) = true := by
  decide

/-- The settle check reads "settled" on a zero reading. -/
theorem settleNotDone_zeros : settleNotDone [0, 0, 0] = false := by
  decide

/-- The settle loop on `rpyWitness` ticks once and stops. -/
theorem flushLoop_rpyWitness :
    flushLoop rpyWitness 2 0 = some [Event.tick, Event.softReset] := by
  decide

/-- The fold of `CalculateCallbackCount`, for any accumulator, adds the
number of `IMU` entries plus `numActuators` times the number of `ESC`
entries. -/
theorem calculateCallbackCount_foldl (N : ℕ) (l : List Sensors) (a : ℕ) :
    l.foldl
        (fun acc s =>
          match s with
          | Sensors.IMU => acc + 1
          | Sensors.ESC => acc + N) a
      = a + l.count Sensors.IMU + N * l.count Sensors.ESC := by
  induction l generalizing a with
  | nil => simp
  | cons x xs ih =>
    cases x <;> simp [List.count_cons, ih] <;> ring

/-- C2: the sensor-completion barrier.  Arming with expected count `k` sets
the shared counter to `-k`; each sensor-callback arrival adds exactly 1;
and the wait of `WaitForSensorsThenSend` (which blocks while the counter is
negative) is unblocked after `j` arrivals precisely when `j ≥ k` — so for
every `k ≥ 0`, a concurrent wait cannot return before the `k`-th signal and
returns once it has arrived, in any interleaving (all counter updates are
serialized by the callback mutex). -/
theorem barrier_arm_signal_wait (k j : ℕ) :
    resetCallbackCount (k : ℤ) = -(k : ℤ) ∧
    signalArrival^[j] (resetCallbackCount (k : ℤ)) = -(k : ℤ) + j ∧
    (waitBlocked (signalArrival^[j] (resetCallbackCount (k : ℤ))) = false ↔ k ≤ j) := by
  refine ⟨by simp [resetCallbackCount], ?_, ?_⟩
  · rw [signalArrival_iterate]
    simp [resetCallbackCount]
  · rw [signalArrival_iterate]
    simp only [resetCallbackCount, waitBlocked, decide_eq_false_iff_not, not_lt]
    omega

/-- C8: with no sensors enabled the expected count is 0, arming leaves the
counter at 0, the wait-loop guard `sensorCallbackCount < 0` is false on
entry, so `WaitForSensorsThenSend` never blocks — and it stays unblocked
after any number of (never-arriving) signals. -/
theorem barrier_zero_expected_immediate :
    resetCallbackCount 0 = 0 ∧
    waitBlocked (resetCallbackCount 0) = false ∧
    ∀ j : ℕ, waitBlocked (signalArrival^[j] (resetCallbackCount 0)) = false := by
  refine ⟨by decide, by decide, ?_⟩
  intro j
  rw [signalArrival_iterate]
  simp [resetCallbackCount, waitBlocked]

/-- C5: for every actuator count `N` and every enabled-sensor subset
(a duplicate-free sensor list), `CalculateCallbackCount` computes
`(1 if IMU enabled) + (N if ESC enabled)`, and the `STEP` branch arms the
barrier with exactly this value on every step (its first event is
`ResetCallbackCount` with that count). -/
theorem callback_budget_formula (N : ℕ) (l : List Sensors) (h : l.Nodup) :
    calculateCallbackCount N l =
      (if Sensors.IMU ∈ l then 1 else 0) + (if Sensors.ESC ∈ l then N else 0) ∧
    ∀ (ac : ActionMsg) (simTime : ℚ) (st : StateMsg),
      (stepBranch ⟨N, l⟩ ac simTime st).1.head? =
        some (Event.arm (calculateCallbackCount N l)) := by
  constructor
  · rw [calculateCallbackCount, calculateCallbackCount_foldl]
    by_cases h1 : Sensors.IMU ∈ l <;> by_cases h2 : Sensors.ESC ∈ l <;>
      simp [h1, h2, List.count_eq_one_of_mem h, List.count_eq_zero.mpr]
  · intro ac simTime st
    rfl

/-- Witness for C5 at `N = 4` and both sensors enabled: the budget is 5 and
the step branch arms with 5. -/
theorem callback_budget_formula_witness :
    calculateCallbackCount 4 [Sensors.IMU, Sensors.ESC] =
      (if Sensors.IMU ∈ [Sensors.IMU, Sensors.ESC] then 1 else 0) +
        (if Sensors.ESC ∈ [Sensors.IMU, Sensors.ESC] then 4 else 0) ∧
    (stepBranch ⟨4, [Sensors.IMU, Sensors.ESC]⟩ ⟨STEP, []⟩ 0 emptyState).1.head? =
      some (Event.arm 5) := by
  have h := callback_budget_formula 4 [Sensors.IMU, Sensors.ESC] (by decide)
  exact ⟨h.1, h.2 ⟨STEP, []⟩ 0 emptyState⟩

/-- C7: the sentinel seeding of `InitState` (angular velocity 1 on each
axis, above the 0.017 tolerance) always fails the settle check, so any
settle loop that starts from the seeded store and terminates performs at
least one warm-up tick. -/
theorem sentinel_forces_warmup (n : ℕ) (rpy : ReadingStream) (fuel : ℕ)
    (tr : List Event)
    (h0 : rpy 0 = (initState n).imu_angular_velocity_rpy)
    (h : flushLoop rpy fuel 0 = some tr) :
    settleNotDone ((initState n).imu_angular_velocity_rpy) = true ∧
    1 ≤ tr.countP Event.isTick := by
  have hseed : settleNotDone ((initState n).imu_angular_velocity_rpy) = true :=
    settleNotDone_ones
  refine ⟨hseed, ?_⟩
  cases fuel with
  | zero => simp [flushLoop] at h
  | succ m =>
    rw [flushLoop, h0, hseed] at h
    simp only [if_true] at h
    cases hrec : flushLoop rpy m 1 with
    | none => rw [hrec] at h; simp at h
    | some tr' =>
      rw [hrec] at h
      simp only [Option.some.injEq] at h
      subst h
      simp [List.countP_cons, Event.isTick, Event.isSoftReset]

/-- Witness for C7: with 4 actuators and readings that settle after one
tick, the seeded check reads "not settled" and the flush performs one
tick. -/
theorem sentinel_forces_warmup_witness :
    settleNotDone ((initState 4).imu_angular_velocity_rpy) = true ∧
    1 ≤ ([Event.tick, Event.softReset] : List Event).countP Event.isTick :=
  sentinel_forces_warmup 4 rpyWitness 2
    [Event.tick, Event.softReset] rfl flushLoop_rpyWitness

/-- A received action whose command is not `RESET` runs the `STEP` branch. -/
theorem loopIteration_step (cfg : Config) (recv : Option (List ℕ))
    (prevAction ac : ActionMsg) (rpy : ReadingStream) (fuel : ℕ)
    (simTime : ℚ) (st : StateMsg)
    (hrecv : receiveAction recv prevAction = (true, ac))
    (hstep : ac.world_control = STEP) :
    loopIteration cfg recv prevAction rpy fuel simTime st =
      some ((stepBranch cfg ac simTime st).1, ac, (stepBranch cfg ac simTime st).2) := by
  unfold loopIteration
  rw [hrecv]
  simp [hstep, STEP, RESET]

/-- C1: for every received action whose command is `STEP`, one loop
iteration advances the simulation by exactly one tick — its event trace
holds exactly one `world->Step(1)` — and this tick comes after the barrier
is armed and the per-actuator commands are published, and before the
blocking wait on the sensors. -/
theorem step_single_tick (cfg : Config) (recv : Option (List ℕ))
    (prevAction ac : ActionMsg) (rpy : ReadingStream) (fuel : ℕ)
    (simTime : ℚ) (st : StateMsg)
    (hrecv : receiveAction recv prevAction = (true, ac))
    (hstep : ac.world_control = STEP) :
    ∃ tr st',
      loopIteration cfg recv prevAction rpy fuel simTime st = some (tr, ac, st') ∧
      tr.countP Event.isTick = 1 ∧
      ∃ pre post, tr = pre ++ Event.tick :: post ∧
        pre.countP Event.isTick = 0 ∧ post.countP Event.isTick = 0 ∧
        pre.countP Event.isArm = 1 ∧ pre.countP Event.isPublish = 1 ∧
        post.countP Event.isWait = 1 := by
  refine ⟨(stepBranch cfg ac simTime st).1, (stepBranch cfg ac simTime st).2,
    loopIteration_step cfg recv prevAction ac rpy fuel simTime st hrecv hstep, ?_, ?_⟩
  · simp [stepBranch, List.countP_cons, List.countP_nil, Event.isTick]
  · refine ⟨[Event.arm (calculateCallbackCount cfg.numActuators cfg.supportedSensors),
      Event.publish ((List.range cfg.numActuators).map (fun i => ac.motor.getD i 0))],
      [Event.waitSensors, Event.send StatusCode.OK], rfl, ?_, ?_, ?_, ?_, ?_⟩ <;>
    simp [List.countP_cons, List.countP_nil, Event.isTick, Event.isArm,
      Event.isPublish, Event.isWait]

/-- Witness for C1: the two-byte datagram `[8, 0]` decodes to a `STEP`
action; the iteration runs the step branch, whose trace ticks once. -/
theorem step_single_tick_witness :
    receiveAction (some [8, 0]) ⟨STEP, []⟩ = (true, ⟨STEP, []⟩) ∧
    (⟨STEP, []⟩ : ActionMsg).world_control = STEP ∧
    ∃ tr st',
      loopIteration ⟨4, [Sensors.IMU, Sensors.ESC]⟩ (some [8, 0]) ⟨STEP, []⟩
          rpyZeros 1 0 emptyState = some (tr, ⟨STEP, []⟩, st') ∧
      tr.countP Event.isTick = 1 ∧
      ∃ pre post, tr = pre ++ Event.tick :: post ∧
        pre.countP Event.isTick = 0 ∧ post.countP Event.isTick = 0 ∧
        pre.countP Event.isArm = 1 ∧ pre.countP Event.isPublish = 1 ∧
        post.countP Event.isWait = 1 :=
  ⟨rfl, rfl,
    step_single_tick ⟨4, [Sensors.IMU, Sensors.ESC]⟩ (some [8, 0]) ⟨STEP, []⟩
      ⟨STEP, []⟩ rpyZeros 1 0 emptyState rfl rfl⟩

/-- Every event in a settle-loop trace is a tick or a soft reset. -/
theorem flushLoop_only_ticks_resets (rpy : ReadingStream) :
    ∀ (fuel t : ℕ) (tr : List Event), flushLoop rpy fuel t = some tr →
      ∀ e ∈ tr, e = Event.tick ∨ e = Event.softReset := by
  intro fuel
  induction fuel with
  | zero =>
    intro t tr h
    simp [flushLoop] at h
  | succ n ih =>
    intro t tr h
    rw [flushLoop] at h
    by_cases hc : settleNotDone (rpy t) = true
    · rw [hc] at h
      simp only [if_true] at h
      cases hrec : flushLoop rpy n (t + 1) with
      | none => rw [hrec] at h; simp at h
      | some tr' =>
        rw [hrec] at h
        simp only [Option.some.injEq] at h
        subst h
        intro e he
        simp only [List.mem_cons] at he
        rcases he with h1 | h1 | h1
        · exact Or.inl h1
        · exact Or.inr h1
        · exact ih (t + 1) tr' hrec e h1
    · rw [Bool.not_eq_true] at hc
      rw [hc] at h
      simp only [Bool.false_eq_true, if_false, Option.some.injEq] at h
      subst h
      intro e he
      simp at he

/-- When the settle loop's fuel runs out, the `RESET` iteration has no
result (the C++ loop would still be spinning). -/
theorem loopIteration_reset_none (cfg : Config) (recv : Option (List ℕ))
    (prevAction ac : ActionMsg) (rpy : ReadingStream) (fuel : ℕ)
    (simTime : ℚ) (st : StateMsg)
    (hrecv : receiveAction recv prevAction = (true, ac))
    (hreset : ac.world_control = RESET)
    (hflush : flushSensors rpy fuel = none) :
    loopIteration cfg recv prevAction rpy fuel simTime st = none := by
  unfold loopIteration
  rw [hrecv]
  simp [hreset, RESET, resetBranch, hflush]

/-- A `RESET` action runs `FlushSensors` and then sends; when the settle
loop terminates within the fuel, the iteration's trace is the flush trace
followed by one `OK` send. -/
theorem loopIteration_reset (cfg : Config) (recv : Option (List ℕ))
    (prevAction ac : ActionMsg) (rpy : ReadingStream) (fuel : ℕ)
    (simTime : ℚ) (st : StateMsg) (ftr : List Event)
    (hrecv : receiveAction recv prevAction = (true, ac))
    (hreset : ac.world_control = RESET)
    (hflush : flushSensors rpy fuel = some ftr) :
    loopIteration cfg recv prevAction rpy fuel simTime st =
      some (ftr ++ [Event.send StatusCode.OK], ac,
        { st with
          imu_angular_velocity_rpy := rpy (ftr.countP Event.isTick)
          sim_time := simTime
          status_code := StatusCode.OK }) := by
  unfold loopIteration
  rw [hrecv]
  simp [hreset, RESET, resetBranch, hflush]

/-- C9: on the `RESET` branch the iteration publishes no motor command,
sends exactly one `State`, that reply carries status `OK` and the final
simulation time — while the `STEP` branch is the one that publishes the
actuator command. -/
theorem reset_branch_replies_without_publish (cfg : Config)
    (recv : Option (List ℕ)) (prevAction ac : ActionMsg)
    (rpy : ReadingStream) (fuel : ℕ) (simTime : ℚ) (st : StateMsg)
    (tr : List Event) (ac' : ActionMsg) (st' : StateMsg)
    (hrecv : receiveAction recv prevAction = (true, ac))
    (hreset : ac.world_control = RESET)
    (hrun : loopIteration cfg recv prevAction rpy fuel simTime st =
      some (tr, ac', st')) :
    tr.countP Event.isPublish = 0 ∧
    tr.countP Event.isSend = 1 ∧
    Event.send StatusCode.OK ∈ tr ∧
    st'.status_code = StatusCode.OK ∧
    st'.sim_time = simTime ∧
    (stepBranch cfg ac simTime st).1.countP Event.isPublish = 1 := by
  cases hflush : flushSensors rpy fuel with
  | none =>
    rw [loopIteration_reset_none cfg recv prevAction ac rpy fuel simTime st
      hrecv hreset hflush] at hrun
    simp at hrun
  | some ftr =>
    rw [loopIteration_reset cfg recv prevAction ac rpy fuel simTime st ftr
      hrecv hreset hflush] at hrun
    simp only [Option.some.injEq, Prod.mk.injEq] at hrun
    obtain ⟨htr, _, hst⟩ := hrun
    subst htr
    subst hst
    have honly : ∀ e ∈ ftr, e = Event.tick ∨ e = Event.softReset := by
      intro e he
      cases hfl : flushLoop rpy fuel 0 with
      | none => rw [flushSensors, hfl] at hflush; simp at hflush
      | some tr0 =>
        rw [flushSensors, hfl] at hflush
        simp only [Option.map_some', Option.some.injEq] at hflush
        subst hflush
        simp only [List.mem_cons] at he
        rcases he with h1 | h1
        · exact Or.inr h1
        · exact flushLoop_only_ticks_resets rpy fuel 0 tr0 hfl e h1
    have hnp : ftr.countP Event.isPublish = 0 := by
      rw [List.countP_eq_zero]
      intro e he
      rcases honly e he with h1 | h1 <;> subst h1 <;> simp [Event.isPublish]
    have hns : ftr.countP Event.isSend = 0 := by
      rw [List.countP_eq_zero]
      intro e he
      rcases honly e he with h1 | h1 <;> subst h1 <;> simp [Event.isSend]
    refine ⟨?_, ?_, ?_, rfl, rfl, ?_⟩
    · rw [List.countP_append, hnp]
      simp [List.countP_cons, List.countP_nil, Event.isPublish]
    · rw [List.countP_append, hns]
      simp [List.countP_cons, List.countP_nil, Event.isSend]
    · simp
    · simp [stepBranch, List.countP_cons, List.countP_nil, Event.isPublish]

/-- Witness for C9: the datagram `[8, 1]` decodes to a `RESET` action;
with settled readings the iteration soft-resets once and sends one `OK`
state, publishing nothing. -/
theorem reset_branch_replies_without_publish_witness :
    ([Event.softReset, Event.send StatusCode.OK] : List Event).countP
        Event.isPublish = 0 ∧
    ([Event.softReset, Event.send StatusCode.OK] : List Event).countP
        Event.isSend = 1 ∧
    Event.send StatusCode.OK ∈
      ([Event.softReset, Event.send StatusCode.OK] : List Event) ∧
    resetWitnessState.status_code = StatusCode.OK ∧
    resetWitnessState.sim_time = 0 ∧
    (stepBranch ⟨4, [Sensors.IMU, Sensors.ESC]⟩ ⟨RESET, []⟩ 0
        emptyState).1.countP Event.isPublish = 1 :=
  reset_branch_replies_without_publish ⟨4, [Sensors.IMU, Sensors.ESC]⟩
    (some [8, 1]) ⟨STEP, []⟩ ⟨RESET, []⟩ rpyZeros 1 0 emptyState
    [Event.softReset, Event.send StatusCode.OK] ⟨RESET, []⟩ resetWitnessState
    (by decide) rfl (by decide)

/-- C3, counterexample: the one-byte datagram `[8]` is a truncated
`Action` (a tag for field 1 with the value missing), so `ParseFromString`
fails — yet `ReceiveAction` still reports an action was received, and the
loop iteration goes on to process it and send a `State` reply, contrary to
the claim that a non-parsing datagram is treated as "no action received"
with the iteration skipped. -/
theorem malformed_datagram_still_processed :
    (parseFromString [8]).1 = false ∧
    (receiveAction (some [8]) ⟨STEP, []⟩).1 = true ∧
    (loopIteration ⟨4, [Sensors.IMU, Sensors.ESC]⟩ (some [8]) ⟨STEP, []⟩
        rpyZeros 1 0 emptyState).map (fun r => r.1.countP Event.isSend) =
      some 1 := by
  decide

/-- C3, amended: `ReceiveAction` reports "no action received" exactly when
`recvfrom` returned no datagram, and only then does the loop skip the
iteration (no events, no reply); the parse result of a received datagram
is discarded. -/
theorem received_iff_datagram (recv : Option (List ℕ))
    (prevAction : ActionMsg) (cfg : Config) (rpy : ReadingStream)
    (fuel : ℕ) (simTime : ℚ) (st : StateMsg) :
    (receiveAction recv prevAction).1 = recv.isSome ∧
    (recv = none →
      loopIteration cfg recv prevAction rpy fuel simTime st =
        some ([], prevAction, st)) := by
  constructor
  · cases recv <;> rfl
  · intro h
    subst h
    rfl

/-- Witness for the amended C3 at `recv = none`: nothing received, the
iteration produces no events and sends nothing. -/
theorem received_iff_datagram_witness :
    (receiveAction none ⟨STEP, []⟩).1 = false ∧
    loopIteration ⟨4, [Sensors.IMU, Sensors.ESC]⟩ none ⟨STEP, []⟩ rpyZeros 1 0
        emptyState = some ([], ⟨STEP, []⟩, emptyState) :=
  ⟨(received_iff_datagram none ⟨STEP, []⟩ ⟨4, [Sensors.IMU, Sensors.ESC]⟩
      rpyZeros 1 0 emptyState).1,
    (received_iff_datagram none ⟨STEP, []⟩ ⟨4, [Sensors.IMU, Sensors.ESC]⟩
      rpyZeros 1 0 emptyState).2 rfl⟩

/-- C4: with every environment variable set but the socket bind failing,
`LoadVars` logs "aborting plugin" and returns early (nothing bound, the
load incomplete) — yet `Load` cannot observe the failure (a `void`
return), and still subscribes and starts the control-loop thread; indeed
it starts the thread for every environment whatsoever. -/
theorem load_starts_loop_despite_failure :
    (loadVars ⟨some 9002, some "twin.sdf", some 4, some "imu,esc",
        false⟩).bound = false ∧
    (loadVars ⟨some 9002, some "twin.sdf", some 4, some "imu,esc",
        false⟩).completed = false ∧
    (load ⟨some 9002, some "twin.sdf", some 4, some "imu,esc",
        false⟩).loopThreadStarted = true ∧
    (load ⟨some 9002, some "twin.sdf", some 4, some "imu,esc",
        false⟩).subscribed = true ∧
    ∀ env : Env, (load env).loopThreadStarted = true :=
  ⟨rfl, rfl, rfl, rfl, fun _ => rfl⟩

/-- A reading that exceeds the tolerance on one of the three axes fails
the settle check. -/
theorem settleNotDone_of_exceed (l : List ℚ) (i : ℕ) (hi : i < 3)
    (h : settleError < |l.getD i 0|) : settleNotDone l = true := by
  rw [← ratAbs_eq_abs] at h
  interval_cases i <;>
    simp only [List.getD_eq_getElem?_getD] at h <;>
    simp [settleNotDone, h]

/-- A reading of at least two entries within the tolerance on all three
axes passes the settle check. -/
theorem settleNotDone_false_of (l : List ℚ) (hlen : 2 ≤ l.length)
    (h : ∀ i, i < 3 → |l.getD i 0| ≤ settleError) :
    settleNotDone l = false := by
  have h0 := h 0 (by omega)
  have h1 := h 1 (by omega)
  have h2 := h 2 (by omega)
  rw [← ratAbs_eq_abs] at h0 h1 h2
  simp only [settleNotDone, Bool.or_eq_false_iff, decide_eq_false_iff_not,
    not_lt]
  exact ⟨⟨⟨by omega, h0⟩, h1⟩, h2⟩

/-- Under readings that first settle at tick `M`, the settle loop entered
at trip `t` with `d + 1` fuel (where `t + d = M`) succeeds with exactly
`d` ticks and no sends or publishes. -/
theorem flushLoop_counts (rpy : ReadingStream) (M : ℕ)
    (hpre : ∀ t, t < M → settleNotDone (rpy t) = true)
    (hM : settleNotDone (rpy M) = false) :
    ∀ d t, t + d = M → ∃ tr, flushLoop rpy (d + 1) t = some tr ∧
      tr.countP Event.isTick = d ∧ tr.countP Event.isSend = 0 ∧
      tr.countP Event.isPublish = 0 := by
  intro d
  induction d with
  | zero =>
    intro t ht
    have he : t = M := by omega
    subst he
    refine ⟨[], ?_, rfl, rfl, rfl⟩
    rw [flushLoop, hM]
    simp
  | succ k ih =>
    intro t ht
    have hlt : t < M := by omega
    obtain ⟨tr, htr, hc1, hc2, hc3⟩ := ih (t + 1) (by omega)
    refine ⟨Event.tick :: Event.softReset :: tr, ?_, ?_, ?_, ?_⟩
    · rw [flushLoop, hpre t hlt]
      simp only [if_true]
      rw [htr]
    · simp [List.countP_cons, Event.isTick, Event.isSoftReset, hc1]
    · simp [List.countP_cons, Event.isSend, hc2]
    · simp [List.countP_cons, Event.isPublish, hc3]

/-- C6: given angular-velocity readings (always at least two present) that
exceed the 0.017 tolerance on some axis before tick `M` and are within it
on all three axes at tick `M`, the `RESET` settle sequence terminates,
performs exactly `M` simulation ticks, and replies with exactly one
`State` whose status is `OK`, stamped with the simulation time. -/
theorem reset_settle_exact_ticks (rpy : ReadingStream) (M : ℕ)
    (simTime : ℚ) (st : StateMsg)
    (hlen : ∀ t, 2 ≤ (rpy t).length)
    (hpre : ∀ t, t < M → ∃ i, i < 3 ∧ settleError < |(rpy t).getD i 0|)
    (hM : ∀ i, i < 3 → |(rpy M).getD i 0| ≤ settleError) :
    ∃ tr st', resetBranch rpy (M + 1) simTime st = some (tr, st') ∧
      tr.countP Event.isTick = M ∧
      tr.countP Event.isSend = 1 ∧
      Event.send StatusCode.OK ∈ tr ∧
      st'.status_code = StatusCode.OK ∧
      st'.sim_time = simTime := by
  have hpre' : ∀ t, t < M → settleNotDone (rpy t) = true := by
    intro t ht
    obtain ⟨i, hi3, hgt⟩ := hpre t ht
    exact settleNotDone_of_exceed (rpy t) i hi3 hgt
  have hM' : settleNotDone (rpy M) = false :=
    settleNotDone_false_of (rpy M) (hlen M) hM
  obtain ⟨ftr, hfl, hc1, hc2, hc3⟩ := flushLoop_counts rpy M hpre' hM' M 0 (by omega)
  have hfs : flushSensors rpy (M + 1) = some (Event.softReset :: ftr) := by
    rw [flushSensors, hfl]
    rfl
  refine ⟨(Event.softReset :: ftr) ++ [Event.send StatusCode.OK],
    { st with
      imu_angular_velocity_rpy :=
        rpy ((Event.softReset :: ftr).countP Event.isTick)
      sim_time := simTime
      status_code := StatusCode.OK }, ?_, ?_, ?_, ?_, rfl, rfl⟩
  · rw [resetBranch, hfs]
  · rw [List.countP_append]
    simp [List.countP_cons, List.countP_nil, Event.isTick, hc1]
  · rw [List.countP_append]
    simp [List.countP_cons, List.countP_nil, Event.isSend, hc2]
  · simp

/-- Witness for C6 at `M = 1`: sentinel readings before the first tick,
zero afterwards — the reset branch ticks once and sends one `OK` state. -/
theorem reset_settle_exact_ticks_witness :
    ∃ tr st', resetBranch rpyWitness 2 0 emptyState = some (tr, st') ∧
      tr.countP Event.isTick = 1 ∧
      tr.countP Event.isSend = 1 ∧
      Event.send StatusCode.OK ∈ tr ∧
      st'.status_code = StatusCode.OK ∧
      st'.sim_time = 0 :=
  reset_settle_exact_ticks rpyWitness 1 0 emptyState
    (by
      intro t
      by_cases h : t = 0 <;> simp [rpyWitness, h])
    (by
      intro t ht
      have he : t = 0 := by omega
      subst he
      refine ⟨0, by omega, ?_⟩
      show settleError < |(List.replicate 3 (1 : ℚ)).getD 0 0|
      rw [settleError_eq]
      norm_num)
    (by
      intro i hi
      show |([0, 0, 0] : List ℚ).getD i 0| ≤ settleError
      rw [settleError_eq]
      interval_cases i <;> norm_num)

/-- C10: `EscSensorCallback` writes the four ESC channels of the store at
exactly the message's `id` index, leaves every other index and all IMU
fields unchanged, and increments the barrier counter; the write is
in-bounds only when `id` is below the arrays' length — the actuator count,
which is the size every ESC array receives in `InitState`. -/
theorem esc_callback_writes_only_id (m : EscSensorMsg) (st : StateMsg)
    (c : ℤ) (n : ℕ)
    (hl1 : st.esc_motor_angular_velocity.length = n)
    (hl2 : st.esc_temperature.length = n)
    (hl3 : st.esc_current.length = n)
    (hl4 : st.esc_voltage.length = n)
    (hid : m.id < n) :
    ((escSensorCallback m st c).1.esc_motor_angular_velocity[m.id]? =
        some m.motor_speed ∧
      (escSensorCallback m st c).1.esc_temperature[m.id]? =
        some m.temperature ∧
      (escSensorCallback m st c).1.esc_current[m.id]? = some m.current ∧
      (escSensorCallback m st c).1.esc_voltage[m.id]? = some m.voltage) ∧
    (∀ j, j ≠ m.id →
      (escSensorCallback m st c).1.esc_motor_angular_velocity[j]? =
          st.esc_motor_angular_velocity[j]? ∧
        (escSensorCallback m st c).1.esc_temperature[j]? =
          st.esc_temperature[j]? ∧
        (escSensorCallback m st c).1.esc_current[j]? =
          st.esc_current[j]? ∧
        (escSensorCallback m st c).1.esc_voltage[j]? =
          st.esc_voltage[j]?) ∧
    ((escSensorCallback m st c).1.imu_angular_velocity_rpy =
        st.imu_angular_velocity_rpy ∧
      (escSensorCallback m st c).1.imu_orientation_quat =
        st.imu_orientation_quat ∧
      (escSensorCallback m st c).1.imu_linear_acceleration_xyz =
        st.imu_linear_acceleration_xyz) ∧
    (escSensorCallback m st c).2 = c + 1 ∧
    ∀ N : ℕ, (initState N).esc_motor_angular_velocity.length = N ∧
      (initState N).esc_temperature.length = N ∧
      (initState N).esc_current.length = N ∧
      (initState N).esc_voltage.length = N := by
  refine ⟨⟨?_, ?_, ?_, ?_⟩, ?_, ⟨rfl, rfl, rfl⟩, rfl, ?_⟩
  · exact List.getElem?_set_self (by rw [hl1]; exact hid)
  · exact List.getElem?_set_self (by rw [hl2]; exact hid)
  · exact List.getElem?_set_self (by rw [hl3]; exact hid)
  · exact List.getElem?_set_self (by rw [hl4]; exact hid)
  · intro j hj
    exact ⟨List.getElem?_set_ne (Ne.symm hj), List.getElem?_set_ne (Ne.symm hj),
      List.getElem?_set_ne (Ne.symm hj), List.getElem?_set_ne (Ne.symm hj)⟩
  · intro N
    refine ⟨?_, ?_, ?_, ?_⟩ <;> simp [initState]

/-- Witness for C10: with 3 actuators, a message for actuator 1 writes
index 1, keeps index 0 at its seeded value, leaves the IMU untouched and
bumps the counter. -/
theorem esc_callback_writes_only_id_witness :
    (1 : ℕ) < 3 ∧
    (escSensorCallback ⟨1, 5, 6, 7, 8⟩ (initState 3)
        0).1.esc_motor_angular_velocity[1]? = some 5 ∧
    (escSensorCallback ⟨1, 5, 6, 7, 8⟩ (initState 3)
        0).1.esc_motor_angular_velocity[0]? = some 100 ∧
    (escSensorCallback ⟨1, 5, 6, 7, 8⟩ (initState 3)
        0).1.imu_angular_velocity_rpy = (initState 3).imu_angular_velocity_rpy ∧
    (escSensorCallback ⟨1, 5, 6, 7, 8⟩ (initState 3) 0).2 = 1 := by
  have h := esc_callback_writes_only_id ⟨1, 5, 6, 7, 8⟩ (initState 3) 0 3
    rfl rfl rfl rfl (by decide)
  refine ⟨by decide, h.1.1, ?_, h.2.2.1.1, h.2.2.2.1⟩
  rw [(h.2.1 0 (by decide)).1]
  rfl

end GymFC
